import Mathlib

/-!
Shallow embedding of the pipers-farm-intelligence reporting pipeline:
the metric aggregation, threshold-alerting, trend-comparison and
action-item synthesis logic, translated from the JavaScript source
(`src/integrations/*/client.js`, `src/agents/*.js`, the data-cleaning
utilities, and the executive agent).

JavaScript numbers are modelled as exact rationals extended with the
IEEE special values NaN, Infinity and -Infinity (`JNum`); negative zero
is identified with zero, and no rounding is modelled — none of the
properties checked here depends on rounding, only on zero-denominator
and NaN behaviour.  Raw API field values (which may be numbers, strings,
null or absent) are modelled by `JVal`, with `parseFloat` / ToNumber
coercions translated from their ECMAScript behaviour on the value forms
that occur in these records (optional sign, decimal digits, decimal
point; leading whitespace skipped; `parseFloat` takes the longest
numeric prefix, ToNumber requires the whole trimmed string and sends the
empty string to 0).
-/

namespace PFI

/-- A JavaScript number: an exact rational, or one of the IEEE special
values NaN, Infinity, -Infinity. -/
inductive JNum where
  | num (q : ℚ)
  | nan
  | inf
  | negInf
deriving DecidableEq, Repr

namespace JNum

/-- The number is an ordinary (finite) value. -/
def isNum : JNum → Bool
  | num _ => true
  | _ => false

/-- JavaScript `<` on numbers: any comparison with NaN is false. -/
def lt : JNum → JNum → Bool
  | num a, num b => decide (a < b)
  | negInf, num _ => true
  | negInf, inf => true
  | num _, inf => true
  | _, _ => false

/-- JavaScript unary minus. -/
def neg : JNum → JNum
  | num a => num (-a)
  | nan => nan
  | inf => negInf
  | negInf => inf

/-- JavaScript `+` on numbers. -/
def add : JNum → JNum → JNum
  | nan, _ => nan
  | _, nan => nan
  | inf, negInf => nan
  | negInf, inf => nan
  | inf, _ => inf
  | _, inf => inf
  | negInf, _ => negInf
  | _, negInf => negInf
  | num a, num b => num (a + b)

/-- JavaScript `-` on numbers. -/
def sub (a b : JNum) : JNum := add a (neg b)

/-- JavaScript `*` on numbers. -/
def mul : JNum → JNum → JNum
  | nan, _ => nan
  | _, nan => nan
  | num a, num b => num (a * b)
  | inf, num b => if b = 0 then nan else if 0 < b then inf else negInf
  | num a, inf => if a = 0 then nan else if 0 < a then inf else negInf
  | negInf, num b => if b = 0 then nan else if 0 < b then negInf else inf
  | num a, negInf => if a = 0 then nan else if 0 < a then negInf else inf
  | inf, inf => inf
  | negInf, negInf => inf
  | inf, negInf => negInf
  | negInf, inf => negInf

/-- JavaScript `/` on numbers: a nonzero finite value divided by zero is
a signed infinity, `0 / 0` is NaN (negative zero is not modelled). -/
def div : JNum → JNum → JNum
  | nan, _ => nan
  | _, nan => nan
  | num a, num b =>
      if b = 0 then (if a = 0 then nan else if 0 < a then inf else negInf)
      else num (a / b)
  | num _, inf => num 0
  | num _, negInf => num 0
  | inf, num b => if 0 ≤ b then inf else negInf
  | negInf, num b => if 0 ≤ b then negInf else inf
  | inf, inf => nan
  | inf, negInf => nan
  | negInf, inf => nan
  | negInf, negInf => nan

/-- Truthiness of a number (`0` and NaN are falsy). -/
def truthy : JNum → Bool
  | num q => decide (q ≠ 0)
  | nan => false
  | _ => true

end JNum

/-- A raw JavaScript field value as it arrives from an API record:
a number, a string, `null`, or absent (`undefined`). -/
inductive JVal where
  | vnum (n : JNum)
  | vstr (s : String)
  | vnull
  | vundef
deriving DecidableEq, Repr

/-- JavaScript truthiness of a value. -/
def JVal.truthy : JVal → Bool
  | vnum n => n.truthy
  | vstr s => decide (s ≠ "")
  | vnull => false
  | vundef => false

/-- Value of a digit run read in base 10 (digits only). -/
def digitsVal (cs : List Char) : ℕ :=
  cs.foldl (fun acc c => acc * 10 + (c.toNat - 48)) 0

/-- Value of a fractional digit run. -/
def fracVal (cs : List Char) : ℚ :=
  (digitsVal cs : ℚ) / (10 : ℚ) ^ cs.length

/-- Parse an unsigned decimal literal prefix (digits, optional decimal
point): the parsed value and the unread remainder, or none when no
digits are present. -/
def parseDec (cs : List Char) : Option (ℚ × List Char) :=
  let intDigits := cs.takeWhile Char.isDigit
  let rest1 := cs.dropWhile Char.isDigit
  match rest1 with
  | '.' :: rest2 =>
      let fracDigits := rest2.takeWhile Char.isDigit
      let rest3 := rest2.dropWhile Char.isDigit
      if intDigits.isEmpty ∧ fracDigits.isEmpty then none
      else some ((digitsVal intDigits : ℚ) + fracVal fracDigits, rest3)
  | _ => if intDigits.isEmpty then none else some ((digitsVal intDigits : ℚ), rest1)

/-- Parse an optionally signed decimal literal prefix. -/
def parseSigned (cs : List Char) : Option (ℚ × List Char) :=
  match cs with
  | '-' :: rest => (parseDec rest).map (fun p => (-p.1, p.2))
  | '+' :: rest => parseDec rest
  | _ => parseDec cs

/-- `parseFloat` on a string: skip leading whitespace, read the longest
numeric prefix, ignore any trailing garbage; NaN when no prefix parses. -/
def parseFloatStr (s : String) : JNum :=
  match parseSigned (s.toList.dropWhile Char.isWhitespace) with
  | some p => JNum.num p.1
  | none => JNum.nan

/-- ToNumber on a string: the whole trimmed string must be a numeric
literal; the empty (or all-whitespace) string converts to 0. -/
def toNumberStr (s : String) : JNum :=
  let cs := ((s.toList.dropWhile Char.isWhitespace).reverse.dropWhile
      Char.isWhitespace).reverse
  if cs.isEmpty then JNum.num 0
  else
    match parseSigned cs with
    | some (q, []) => JNum.num q
    | _ => JNum.nan

/-- `parseFloat` applied to an arbitrary value (the argument is first
converted to a string; for a number that round-trips, including NaN and
the infinities; `null` and `undefined` stringify to non-numeric text). -/
def parseFloatVal : JVal → JNum
  | JVal.vstr s => parseFloatStr s
  | JVal.vnum n => n
  | JVal.vnull => JNum.nan
  | JVal.vundef => JNum.nan

/-- ToNumber (implicit arithmetic coercion) of a value. -/
def toNumberVal : JVal → JNum
  | JVal.vstr s => toNumberStr s
  | JVal.vnum n => n
  | JVal.vnull => JNum.num 0
  | JVal.vundef => JNum.nan

/-- `safeFloat` from the data-cleaning utilities: null, undefined and
the empty string fall back, as does any value that parses to NaN. -/
def safeFloat (value : JVal) (fallback : JNum) : JNum :=
  if value = JVal.vnull ∨ value = JVal.vundef ∨ value = JVal.vstr "" then fallback
  else
    let parsed := parseFloatVal value
    if parsed = JNum.nan then fallback else parsed

/-! ## Shopify client: `getSalesMetrics` (src/integrations/shopify/client.js) -/

/-- A Shopify product variant (only the field the client reads). -/
structure Variant where
  compare_at_price : JVal
deriving DecidableEq, Repr

/-- A Shopify order line item as read by `getSalesMetrics`. -/
structure LineItem where
  quantity : JNum
  price : JVal
  name : String
  variant : Option Variant
deriving DecidableEq, Repr

/-- A Shopify order as read by `getSalesMetrics`; `line_items` is
`none` when the field is absent (the source guards it with `?.`). -/
structure JOrder where
  total_price : JVal
  line_items : Option (List LineItem)
deriving DecidableEq, Repr

/-- Accumulated per-product quantity and revenue (`top_products` entry). -/
structure ProductAgg where
  quantity : JNum
  revenue : JNum
deriving DecidableEq, Repr

/-- `metrics.total_revenue` accumulation:
`parseFloat(order.total_price || 0)` summed over the orders. -/
def orderRevenue (o : JOrder) : JNum :=
  if o.total_price.truthy then parseFloatVal o.total_price else JNum.num 0

/-- `parseFloat(item.variant?.compare_at_price || item.price * 0.6)`:
the cost fallback used when no explicit cost is available. -/
def itemCostNum (item : LineItem) : JNum :=
  let cav : JVal :=
    match item.variant with
    | some v => v.compare_at_price
    | none => JVal.vundef
  if cav.truthy then parseFloatVal cav
  else JNum.mul (toNumberVal item.price) (JNum.num (6 / 10))

/-- Update the `top_products` accumulator for one line item, keyed by
product name in first-occurrence order (JavaScript object string keys
preserve insertion order). -/
def addProduct (tp : List (String × ProductAgg)) (name : String)
    (q rev : JNum) : List (String × ProductAgg) :=
  match tp with
  | [] => [(name, ⟨q, rev⟩)]
  | (n, agg) :: rest =>
      if n = name then (n, ⟨JNum.add agg.quantity q, JNum.add agg.revenue rev⟩) :: rest
      else (n, agg) :: addProduct rest name q rev

/-- One step of the line-item fold: accumulates `total_cost` and the
`top_products` map exactly as the source loop does. -/
def lineItemStep (acc : JNum × List (String × ProductAgg)) (item : LineItem) :
    JNum × List (String × ProductAgg) :=
  let price := parseFloatVal item.price
  let cost := itemCostNum item
  let itemRevenue := JNum.mul item.quantity price
  let itemCost := JNum.mul item.quantity cost
  (JNum.add acc.1 itemCost, addProduct acc.2 item.name item.quantity itemRevenue)

/-- The full order fold of `getSalesMetrics`: total revenue, total cost
and the unsorted `top_products` accumulator. -/
def salesFold (orders : List JOrder) : JNum × JNum × List (String × ProductAgg) :=
  orders.foldl
    (fun acc o =>
      let items := o.line_items.getD []
      let inner := items.foldl lineItemStep (acc.2.1, acc.2.2)
      (JNum.add acc.1 (orderRevenue o), inner.1, inner.2))
    (JNum.num 0, JNum.num 0, [])

/-- Stable insertion of `x` into a list already sorted descending by
`key` (under the boolean strict order `ltb`): `x` is placed before the
first element it is not below, hence after all strictly greater keys
and before equal ones inserted earlier. -/
def insertDesc (ltb : κ → κ → Bool) (key : α → κ) (x : α) : List α → List α
  | [] => [x]
  | y :: ys =>
      if ltb (key x) (key y) then y :: insertDesc ltb key x ys else x :: y :: ys

/-- Stable descending sort by `key`, the embedding of the source's
`sort((a, b) => b.key - a.key)` (ECMAScript array sort is stable). -/
def sortDesc (ltb : κ → κ → Bool) (key : α → κ) : List α → List α
  | [] => []
  | x :: xs => insertDesc ltb key x (sortDesc ltb key xs)

/-- The sales metrics record produced by `ShopifyClient.getSalesMetrics`. -/
structure SalesMetrics where
  total_orders : ℕ
  total_revenue : JNum
  total_cost : JNum
  total_margin : JNum
  margin_percentage : JNum
  top_products : List (String × ProductAgg)
  average_order_value : JNum
deriving DecidableEq, Repr

/-- The ranked `top_products` step: stable descending sort by revenue,
truncated to 10. -/
def topProductsOf (tp : List (String × ProductAgg)) : List (String × ProductAgg) :=
  (sortDesc JNum.lt (fun p => p.2.revenue) tp).take 10

/-- `ShopifyClient.getSalesMetrics`, as a pure function of the fetched
orders. -/
def getSalesMetrics (orders : List JOrder) : SalesMetrics :=
  let folded := salesFold orders
  let total_revenue := folded.1
  let total_cost := folded.2.1
  let total_margin := JNum.sub total_revenue total_cost
  { total_orders := orders.length
    total_revenue := total_revenue
    total_cost := total_cost
    total_margin := total_margin
    margin_percentage :=
      if JNum.lt (JNum.num 0) total_revenue then
        JNum.mul (JNum.div total_margin total_revenue) (JNum.num 100)
      else JNum.num 0
    top_products := topProductsOf folded.2.2
    average_order_value :=
      if 0 < orders.length then JNum.div total_revenue (JNum.num orders.length)
      else JNum.num 0 }

/-! ## Aptean client: yield data and yield summary (the aptean client file) -/

/-- A raw item of the `/production/yields` API response. -/
structure YieldItemRaw where
  batch_id : String
  product_type : String
  input_weight_kg : JNum
  output_weight_kg : JNum
  waste_weight_kg : JNum
  production_date : String
deriving DecidableEq, Repr

/-- A normalized yield record as produced by `_getYieldDataAPI`. -/
structure YieldRecord where
  batch_id : String
  product_type : String
  input_weight : JNum
  output_weight : JNum
  yield_percentage : JNum
  waste_weight : JNum
  production_date : String
deriving DecidableEq, Repr

/-- `ApteanClient._getYieldDataAPI`: the per-item mapping, including the
unguarded `(output_weight_kg / input_weight_kg) * 100`. -/
def getYieldDataAPI (items : List YieldItemRaw) : List YieldRecord :=
  items.map fun item =>
    { batch_id := item.batch_id
      product_type := item.product_type
      input_weight := item.input_weight_kg
      output_weight := item.output_weight_kg
      yield_percentage :=
        JNum.mul (JNum.div item.output_weight_kg item.input_weight_kg) (JNum.num 100)
      waste_weight := item.waste_weight_kg
      production_date := item.production_date }

/-- Per-product-type running totals in the yield summary. -/
structure TypeData where
  batches : ℕ
  input : JNum
  output : JNum
  waste : JNum
  yield_pct : JNum
deriving DecidableEq, Repr

/-- A low-yield alert entry pushed by `getYieldSummary` (yield below 80). -/
structure YieldAlert where
  batch_id : String
  product_type : String
  yield_percentage : JNum
  date : String
deriving DecidableEq, Repr

/-- The summary record produced by `ApteanClient.getYieldSummary`. -/
structure YieldSummary where
  total_batches : ℕ
  total_input_weight : JNum
  total_output_weight : JNum
  total_waste_weight : JNum
  average_yield_percentage : JNum
  waste_percentage : JNum
  by_product_type : List (String × TypeData)
  alerts : List YieldAlert
deriving DecidableEq, Repr

/-- Update the per-product-type accumulator for one record. -/
def addTypeData (bt : List (String × TypeData)) (item : YieldRecord) :
    List (String × TypeData) :=
  match bt with
  | [] => [(item.product_type,
      ⟨1, item.input_weight, item.output_weight, item.waste_weight, JNum.num 0⟩)]
  | (t, d) :: rest =>
      if t = item.product_type then
        (t, ⟨d.batches + 1, JNum.add d.input item.input_weight,
             JNum.add d.output item.output_weight,
             JNum.add d.waste item.waste_weight, d.yield_pct⟩) :: rest
      else (t, d) :: addTypeData rest item

/-- `ApteanClient.getYieldSummary`, as a pure function of the fetched
yield records: fold the totals, per-type rollup and low-yield alerts,
then compute the overall ratios (guarded by `total_input_weight > 0`)
and the per-type `yield_pct` (unguarded `(output / input) * 100`). -/
def getYieldSummary (yields : List YieldRecord) : YieldSummary :=
  let folded := yields.foldl
    (fun (acc : YieldSummary) item =>
      { acc with
        total_input_weight := JNum.add acc.total_input_weight item.input_weight
        total_output_weight := JNum.add acc.total_output_weight item.output_weight
        total_waste_weight := JNum.add acc.total_waste_weight item.waste_weight
        by_product_type := addTypeData acc.by_product_type item
        alerts :=
          if JNum.lt item.yield_percentage (JNum.num 80) then
            acc.alerts ++ [⟨item.batch_id, item.product_type,
              item.yield_percentage, item.production_date⟩]
          else acc.alerts })
    { total_batches := yields.length
      total_input_weight := JNum.num 0
      total_output_weight := JNum.num 0
      total_waste_weight := JNum.num 0
      average_yield_percentage := JNum.num 0
      waste_percentage := JNum.num 0
      by_product_type := []
      alerts := [] }
  let withAvg :=
    if JNum.lt (JNum.num 0) folded.total_input_weight then
      { folded with
        average_yield_percentage :=
          JNum.mul (JNum.div folded.total_output_weight folded.total_input_weight)
            (JNum.num 100)
        waste_percentage :=
          JNum.mul (JNum.div folded.total_waste_weight folded.total_input_weight)
            (JNum.num 100) }
    else folded
  { withAvg with
    by_product_type := withAvg.by_product_type.map fun p =>
      (p.1, { p.2 with yield_pct := JNum.mul (JNum.div p.2.output p.2.input) (JNum.num 100) }) }

/-! ## Klaviyo client: `getPerformanceSummary` (src/integrations/klaviyo/client.js)

The per-campaign statistics are already coerced to plain numbers by
`getCampaignStats` (every field carries a `|| 0` fallback), so this
domain is modelled directly over ℚ. -/

/-- Per-campaign statistics as returned by `getCampaignStats`. -/
structure CampaignStats where
  recipients : ℚ
  opens : ℚ
  unique_opens : ℚ
  clicks : ℚ
  unique_clicks : ℚ
  open_rate : ℚ
  click_rate : ℚ
  revenue : ℚ
deriving DecidableEq, Repr

/-- A campaign joined with its statistics (`getCampaignMetrics` output). -/
structure Campaign where
  id : String
  name : String
  metrics : CampaignStats
deriving DecidableEq, Repr

/-- A `top_campaigns` entry of the performance summary. -/
structure TopCampaign where
  name : String
  revenue : ℚ
  open_rate : ℚ
  click_rate : ℚ
deriving DecidableEq, Repr

/-- The summary record produced by `KlaviyoClient.getPerformanceSummary`. -/
structure PerformanceSummary where
  total_campaigns : ℕ
  total_recipients : ℚ
  total_opens : ℚ
  total_clicks : ℚ
  total_revenue : ℚ
  average_open_rate : ℚ
  average_click_rate : ℚ
  top_campaigns : List TopCampaign
deriving DecidableEq, Repr

/-- Boolean strict order on ℚ, the comparator semantics of
`sort((a, b) => b.revenue - a.revenue)` on plain numbers. -/
def qlt (a b : ℚ) : Bool := decide (a < b)

/-- `KlaviyoClient.getPerformanceSummary`, as a pure function of the
fetched campaigns. -/
def getPerformanceSummary (campaigns : List Campaign) : PerformanceSummary :=
  { total_campaigns := campaigns.length
    total_recipients := campaigns.foldl (fun s c => s + c.metrics.recipients) 0
    total_opens := campaigns.foldl (fun s c => s + c.metrics.unique_opens) 0
    total_clicks := campaigns.foldl (fun s c => s + c.metrics.unique_clicks) 0
    total_revenue := campaigns.foldl (fun s c => s + c.metrics.revenue) 0
    average_open_rate :=
      if 0 < campaigns.length then
        (campaigns.foldl (fun s c => s + c.metrics.open_rate) 0) / campaigns.length
      else 0
    average_click_rate :=
      if 0 < campaigns.length then
        (campaigns.foldl (fun s c => s + c.metrics.click_rate) 0) / campaigns.length
      else 0
    top_campaigns :=
      ((sortDesc qlt (fun c => c.metrics.revenue) campaigns).take 5).map fun c =>
        ⟨c.name, c.metrics.revenue, c.metrics.open_rate, c.metrics.click_rate⟩ }

/-! ## Alerts and the threshold engine of the three agents -/

/-- Alert severity. -/
inductive Severity where
  | critical
  | warning
  | info
deriving DecidableEq, Repr

/-- An alert as pushed by the agents' `generateAlerts`.  The `message`
strings of the source are display formatting of the same fields the
alert is keyed on and are not modelled. -/
structure Alert where
  type : String
  severity : Severity
deriving DecidableEq, Repr

/-- The finance block of `config/thresholds.json`. -/
structure FinanceThresholds where
  revenue_drop_alert_percentage : ℚ
  margin_critical_percentage : ℚ
  margin_warning_percentage : ℚ
  aov_drop_alert_percentage : ℚ
deriving DecidableEq, Repr

/-- The `sales` section of a finance report; `aov_change_percentage` is
`none` for the weekly report, which does not set the field. -/
structure SalesSection where
  total_revenue : JNum
  total_orders : ℕ
  average_order_value : JNum
  previous_period_revenue : JNum
  revenue_change : JNum
  revenue_change_percentage : JNum
  aov_change_percentage : Option JNum
deriving DecidableEq, Repr

/-- The `margins` section of a finance report. -/
structure MarginsSection where
  total_cost : JNum
  gross_margin : JNum
  margin_percentage : JNum
deriving DecidableEq, Repr

/-- A `top_products` entry of a finance report. -/
structure TopProduct where
  name : String
  quantity_sold : JNum
  revenue : JNum
deriving DecidableEq, Repr

/-- A finance report (daily or weekly). -/
structure FinanceReport where
  period : String
  sales : SalesSection
  margins : MarginsSection
  top_products : List TopProduct
  alerts : List Alert
deriving DecidableEq, Repr

/-- Truthiness of the optional `aov_change_percentage` field (absent,
zero and NaN are all falsy). -/
def aovTruthy : Option JNum → Bool
  | some n => n.truthy
  | none => false

/-- `FinanceAgent.generateAlerts`: the list of alerts pushed onto the
report, in push order. -/
def financeAlerts (th : FinanceThresholds) (report : FinanceReport) : List Alert :=
  (if JNum.lt report.sales.revenue_change_percentage
      (JNum.num (-th.revenue_drop_alert_percentage)) then
    [⟨"revenue_drop", Severity.warning⟩]
  else []) ++
  (if JNum.lt report.margins.margin_percentage (JNum.num th.margin_critical_percentage) then
    [⟨"margin_low", Severity.critical⟩]
  else if JNum.lt report.margins.margin_percentage (JNum.num th.margin_warning_percentage) then
    [⟨"margin_low", Severity.warning⟩]
  else []) ++
  (if aovTruthy report.sales.aov_change_percentage &&
      (match report.sales.aov_change_percentage with
       | some v => JNum.lt v (JNum.num (-th.aov_drop_alert_percentage))
       | none => false) then
    [⟨"aov_drop", Severity.info⟩]
  else [])

/-- The operations block of `config/thresholds.json`. -/
structure OperationsThresholds where
  stock_value_critical : ℚ
  stock_value_warning : ℚ
  yield_critical_percentage : ℚ
  yield_warning_percentage : ℚ
  waste_critical_percentage : ℚ
  waste_warning_percentage : ℚ
  dispatch_completion_warning : ℚ
deriving DecidableEq, Repr

/-- A reorder alert entry carried in the stock section. -/
structure ReorderAlert where
  product : String
  current : JNum
  reorder_level : JNum
  on_order : JNum
deriving DecidableEq, Repr

/-- The `stock` section of an operations report. -/
structure StockSection where
  total_value : JNum
  total_items : ℕ
  items_below_reorder : ℕ
  reorder_alerts : List ReorderAlert
deriving DecidableEq, Repr

/-- The `production` section of an operations report. -/
structure ProductionSection where
  total_batches : ℕ
  average_yield_percentage : JNum
  waste_percentage : JNum
  yield_by_product : List (String × ℕ × JNum)
deriving DecidableEq, Repr

/-- The `warehouse` section of an operations report. -/
structure WarehouseSection where
  total_dispatches : ℕ
  completed : ℕ
  pending : ℕ
  completion_rate : JNum
deriving DecidableEq, Repr

/-- An open purchase order entry of an operations report. -/
structure PurchaseOrder where
  po_number : String
  supplier : String
  value : JNum
  expected_date : String
deriving DecidableEq, Repr

/-- An operations report. -/
structure OperationsReport where
  stock : StockSection
  production : ProductionSection
  warehouse : WarehouseSection
  purchase_orders : List PurchaseOrder
  alerts : List Alert
deriving DecidableEq, Repr

/-- `OperationsAgent.generateAlerts`: the list of alerts pushed onto the
report, in push order. -/
def operationsAlerts (th : OperationsThresholds) (report : OperationsReport) :
    List Alert :=
  (if JNum.lt report.stock.total_value (JNum.num th.stock_value_critical) then
    [⟨"stock_value_low", Severity.critical⟩]
  else if JNum.lt report.stock.total_value (JNum.num th.stock_value_warning) then
    [⟨"stock_value_low", Severity.warning⟩]
  else []) ++
  (if 0 < report.stock.items_below_reorder then
    [⟨"reorder_required", Severity.warning⟩]
  else []) ++
  (if JNum.lt report.production.average_yield_percentage
      (JNum.num th.yield_critical_percentage) then
    [⟨"yield_low", Severity.critical⟩]
  else if JNum.lt report.production.average_yield_percentage
      (JNum.num th.yield_warning_percentage) then
    [⟨"yield_low", Severity.warning⟩]
  else []) ++
  (if JNum.lt (JNum.num th.waste_critical_percentage) report.production.waste_percentage then
    [⟨"waste_high", Severity.critical⟩]
  else if JNum.lt (JNum.num th.waste_warning_percentage) report.production.waste_percentage then
    [⟨"waste_high", Severity.warning⟩]
  else []) ++
  (if JNum.lt report.warehouse.completion_rate (JNum.num th.dispatch_completion_warning) then
    [⟨"dispatch_delayed", Severity.warning⟩]
  else [])

/-- The marketing block of `config/thresholds.json`. -/
structure MarketingThresholds where
  open_rate_critical : ℚ
  open_rate_warning : ℚ
  click_rate_critical : ℚ
  click_rate_warning : ℚ
deriving DecidableEq, Repr

/-- A trend direction (`MarketingAgent.calculateTrend` result). -/
inductive Trend where
  | up
  | down
  | stable
deriving DecidableEq, Repr

/-- `MarketingAgent.calculateTrend`. -/
def calculateTrend (current previous : ℚ) : Trend :=
  if previous = 0 then Trend.stable
  else
    let change := (current - previous) / previous * 100
    if change > 5 then Trend.up
    else if change < -5 then Trend.down
    else Trend.stable

/-- The `campaigns` section of a weekly marketing report. -/
structure CampaignsSection where
  total_campaigns : ℕ
  total_recipients : ℚ
  average_open_rate : ℚ
  average_click_rate : ℚ
  total_revenue : ℚ
  roi : ℚ
deriving DecidableEq, Repr

/-- The `performance_trends` section of a weekly marketing report. -/
structure TrendsSection where
  open_rate_trend : Trend
  click_rate_trend : Trend
  revenue_trend : Trend
deriving DecidableEq, Repr

/-- A weekly marketing report. -/
structure MarketingReport where
  period : String
  campaigns : CampaignsSection
  top_campaigns : List TopCampaign
  performance_trends : TrendsSection
  alerts : List Alert
deriving DecidableEq, Repr

/-- The daily marketing snapshot (`generateDailySnapshot`): note that it
carries no alerts field and runs no threshold evaluation. -/
structure MarketingSnapshot where
  period : String
  campaigns_sent : ℕ
  average_open_rate : ℚ
  average_click_rate : ℚ
  revenue_attributed : ℚ
deriving DecidableEq, Repr

/-- `MarketingAgent.generateDailySnapshot`, as a pure function of the
fetched performance summary. -/
def generateDailySnapshot (summary : PerformanceSummary) : MarketingSnapshot :=
  { period := "daily"
    campaigns_sent := summary.total_campaigns
    average_open_rate := summary.average_open_rate
    average_click_rate := summary.average_click_rate
    revenue_attributed := summary.total_revenue }

/-- `MarketingAgent.generateAlerts`: the list of alerts pushed onto the
weekly report, in push order. -/
def marketingAlerts (th : MarketingThresholds) (report : MarketingReport) :
    List Alert :=
  (if report.campaigns.average_open_rate < th.open_rate_critical then
    [⟨"low_open_rate", Severity.critical⟩]
  else if report.campaigns.average_open_rate < th.open_rate_warning then
    [⟨"low_open_rate", Severity.warning⟩]
  else []) ++
  (if report.campaigns.average_click_rate < th.click_rate_critical then
    [⟨"low_click_rate", Severity.critical⟩]
  else if report.campaigns.average_click_rate < th.click_rate_warning then
    [⟨"low_click_rate", Severity.warning⟩]
  else []) ++
  (match report.top_campaigns with
   | c :: _ =>
       if 1000 < c.revenue then [⟨"high_performing_campaign", Severity.info⟩] else []
   | [] => []) ++
  (if report.performance_trends.open_rate_trend = Trend.down then
    [⟨"trend_alert", Severity.info⟩]
  else []) ++
  (if report.performance_trends.click_rate_trend = Trend.down then
    [⟨"trend_alert", Severity.info⟩]
  else [])

/-! ## Executive agent (the executive agent file) -/

/-- An action item emitted by `generateActionItems`.  The `action`
string of the source is rendered from the cited identifiers and metric;
`named` holds the product names (rule 1) or PO numbers (rule 2) that the
source comma-joins into the text, and is empty for the metric-citing
rules 3-5. -/
structure ActionItem where
  priority : String
  department : String
  named : List String
deriving DecidableEq, Repr

/-- Rule 1 of `generateActionItems`: stock reorder actions. -/
def actionRule1 (operationsReport : OperationsReport) : List ActionItem :=
  if 0 < operationsReport.stock.items_below_reorder then
    let urgentItems := operationsReport.stock.reorder_alerts.take 3
    if 0 < urgentItems.length then
      [⟨"high", "operations", urgentItems.map (fun i => i.product)⟩]
    else []
  else []

/-- Rule 2 of `generateActionItems`: purchase order approval actions. -/
def actionRule2 (operationsReport : OperationsReport) : List ActionItem :=
  if 0 < operationsReport.purchase_orders.length then
    let pendingPOs := operationsReport.purchase_orders.take 2
    [⟨"medium", "finance", pendingPOs.map (fun po => po.po_number)⟩]
  else []

/-- Rule 3 of `generateActionItems`: margin actions. -/
def actionRule3 (financeReport : FinanceReport) : List ActionItem :=
  if JNum.lt financeReport.margins.margin_percentage (JNum.num 15) then
    [⟨"high", "finance", []⟩]
  else []

/-- Rule 4 of `generateActionItems`: yield actions. -/
def actionRule4 (operationsReport : OperationsReport) : List ActionItem :=
  if JNum.lt operationsReport.production.average_yield_percentage (JNum.num 80) then
    [⟨"high", "operations", []⟩]
  else []

/-- Rule 5 of `generateActionItems`: marketing actions; the marketing
report defaults to null and the rule is guarded on its presence. -/
def actionRule5 (marketingReport : Option MarketingReport) : List ActionItem :=
  match marketingReport with
  | some m =>
      if m.campaigns.average_open_rate < 15 then [⟨"medium", "marketing", []⟩] else []
  | none => []

/-- `ExecutiveAgent.generateActionItems`: the five rules evaluated in
source order, each pushing at most one action. -/
def generateActionItems (financeReport : FinanceReport)
    (operationsReport : OperationsReport)
    (marketingReport : Option MarketingReport) : List ActionItem :=
  actionRule1 operationsReport ++ actionRule2 operationsReport ++
  actionRule3 financeReport ++ actionRule4 operationsReport ++
  actionRule5 marketingReport

/-- The top-level alert buckets of a digest. -/
structure DigestAlerts where
  critical : List Alert
  warning : List Alert
deriving DecidableEq, Repr

/-- Severity test used by the digest bucket filters. -/
def sevIs (s : Severity) (a : Alert) : Bool := a.severity = s

/-- The flattened summary block of a daily digest. -/
structure DailySummaryBlock where
  sales_revenue : JNum
  sales_change_percentage : JNum
  sales_orders : ℕ
  stock_value : JNum
  stock_items_to_reorder : ℕ
  production_yield_percentage : JNum
  production_batches : ℕ
  marketing_campaigns_sent : ℕ
  marketing_average_ctr : ℚ
deriving DecidableEq, Repr

/-- A daily executive digest. -/
structure DailyDigest where
  summary : DailySummaryBlock
  alerts : DigestAlerts
  actions : List ActionItem
  reports_finance : FinanceReport
  reports_operations : OperationsReport
  reports_marketing : MarketingSnapshot
deriving DecidableEq, Repr

/-- `ExecutiveAgent.generateDailyDigest`, as a pure function of the
three fetched domain reports: merge the finance and operations alerts
(the daily marketing snapshot has none), partition them into the
`critical` and `warning` buckets by severity, and synthesize actions. -/
def generateDailyDigest (financeReport : FinanceReport)
    (operationsReport : OperationsReport)
    (marketingSnapshot : MarketingSnapshot) : DailyDigest :=
  let allAlerts := financeReport.alerts ++ operationsReport.alerts
  { summary :=
      { sales_revenue := financeReport.sales.total_revenue
        sales_change_percentage := financeReport.sales.revenue_change_percentage
        sales_orders := financeReport.sales.total_orders
        stock_value := operationsReport.stock.total_value
        stock_items_to_reorder := operationsReport.stock.items_below_reorder
        production_yield_percentage :=
          operationsReport.production.average_yield_percentage
        production_batches := operationsReport.production.total_batches
        marketing_campaigns_sent := marketingSnapshot.campaigns_sent
        marketing_average_ctr := marketingSnapshot.average_click_rate }
    alerts :=
      { critical := allAlerts.filter (sevIs Severity.critical)
        warning := allAlerts.filter (sevIs Severity.warning) }
    actions := generateActionItems financeReport operationsReport none
    reports_finance := financeReport
    reports_operations := operationsReport
    reports_marketing := marketingSnapshot }

/-- The flattened summary block of a weekly summary. -/
structure WeeklySummaryBlock where
  sales_revenue : JNum
  sales_change_percentage : JNum
  sales_orders : ℕ
  sales_margin_percentage : JNum
  stock_value : JNum
  stock_items_to_reorder : ℕ
  production_yield_percentage : JNum
  production_waste_percentage : JNum
  marketing_campaigns : ℕ
  marketing_open_rate : ℚ
  marketing_click_rate : ℚ
  marketing_revenue : ℚ
deriving DecidableEq, Repr

/-- A weekly executive summary. -/
structure WeeklySummary where
  summary : WeeklySummaryBlock
  alerts : DigestAlerts
  actions : List ActionItem
  reports_finance : FinanceReport
  reports_operations : OperationsReport
  reports_marketing : MarketingReport
deriving DecidableEq, Repr

/-- `ExecutiveAgent.generateWeeklySummary`, as a pure function of the
three fetched domain reports: all three alert lists are merged. -/
def generateWeeklySummary (financeReport : FinanceReport)
    (operationsReport : OperationsReport)
    (marketingReport : MarketingReport) : WeeklySummary :=
  let allAlerts := financeReport.alerts ++ operationsReport.alerts ++
    marketingReport.alerts
  { summary :=
      { sales_revenue := financeReport.sales.total_revenue
        sales_change_percentage := financeReport.sales.revenue_change_percentage
        sales_orders := financeReport.sales.total_orders
        sales_margin_percentage := financeReport.margins.margin_percentage
        stock_value := operationsReport.stock.total_value
        stock_items_to_reorder := operationsReport.stock.items_below_reorder
        production_yield_percentage :=
          operationsReport.production.average_yield_percentage
        production_waste_percentage := operationsReport.production.waste_percentage
        marketing_campaigns := marketingReport.campaigns.total_campaigns
        marketing_open_rate := marketingReport.campaigns.average_open_rate
        marketing_click_rate := marketingReport.campaigns.average_click_rate
        marketing_revenue := marketingReport.campaigns.total_revenue }
    alerts :=
      { critical := allAlerts.filter (sevIs Severity.critical)
        warning := allAlerts.filter (sevIs Severity.warning) }
    actions := generateActionItems financeReport operationsReport (some marketingReport)
    reports_finance := financeReport
    reports_operations := operationsReport
    reports_marketing := marketingReport }

/-- The daily digest flow including its `Promise.all` barrier: each
domain fetch either succeeds with a report or fails with an error, and
the digest is produced only when all three succeed (an all-or-nothing
join; a rejected fetch rejects the whole digest with that failure). -/
def generateDailyDigestRun (financeFetch : Except String FinanceReport)
    (operationsFetch : Except String OperationsReport)
    (marketingFetch : Except String MarketingSnapshot) :
    Except String DailyDigest :=
  match financeFetch with
  | Except.error e => Except.error e
  | Except.ok financeReport =>
      match operationsFetch with
      | Except.error e => Except.error e
      | Except.ok operationsReport =>
          match marketingFetch with
          | Except.error e => Except.error e
          | Except.ok marketingSnapshot =>
              Except.ok
                (generateDailyDigest financeReport operationsReport marketingSnapshot)

/-- The weekly summary flow including its `Promise.all` barrier. -/
def generateWeeklySummaryRun (financeFetch : Except String FinanceReport)
    (operationsFetch : Except String OperationsReport)
    (marketingFetch : Except String MarketingReport) :
    Except String WeeklySummary :=
  match financeFetch with
  | Except.error e => Except.error e
  | Except.ok financeReport =>
      match operationsFetch with
      | Except.error e => Except.error e
      | Except.ok operationsReport =>
          match marketingFetch with
          | Except.error e => Except.error e
          | Except.ok marketingReport =>
              Except.ok
                (generateWeeklySummary financeReport operationsReport marketingReport)

/-! ## Specification predicates -/

/-- The output of a stable descending ranking of `l` by `key` under the
boolean strict order `ltb`: a permutation of `l`, arranged so that no
element is strictly below a later one, in which elements of equal key
keep their original relative order. -/
def RankedBy (ltb : κ → κ → Bool) (key : α → κ) [DecidableEq κ]
    (l sorted : List α) : Prop :=
  sorted.Perm l ∧
  sorted.Pairwise (fun a b => ltb (key a) (key b) = false) ∧
  ∀ q, sorted.filter (fun a => decide (key a = q)) =
    l.filter (fun a => decide (key a = q))

/-- Mutual exclusion of a two-tier alert: the metric contributes at most
one alert; when the critical boundary fires it contributes exactly the
critical alert, and the critical alert appears only when the boundary
fires; it never contributes both severities. -/
def twoTierOk (as : List Alert) (t : String) (critFires : Prop) : Prop :=
  (as.filter (fun a => decide (a.type = t))).length ≤ 1 ∧
  (critFires → as.filter (fun a => decide (a.type = t)) = [⟨t, Severity.critical⟩]) ∧
  (¬critFires → Alert.mk t Severity.critical ∉ as) ∧
  ¬(Alert.mk t Severity.critical ∈ as ∧ Alert.mk t Severity.warning ∈ as)

/-- Strict partition of a merged alert list into the two digest buckets:
each bucket is severity-homogeneous, draws only from the merged list,
the buckets are disjoint, and info alerts land in neither. -/
def bucketPartition (d : DigestAlerts) (merged : List Alert) : Prop :=
  (∀ a ∈ d.critical, a.severity = Severity.critical) ∧
  (∀ a ∈ d.warning, a.severity = Severity.warning) ∧
  (∀ a ∈ d.critical, a ∈ merged) ∧
  (∀ a ∈ d.warning, a ∈ merged) ∧
  (∀ a, a ∈ d.critical → a ∈ d.warning → False) ∧
  (∀ a ∈ merged, a.severity = Severity.info → a ∉ d.critical ∧ a ∉ d.warning)

/-! ## Concrete inputs used by the evaluation and witness theorems -/

/-- A production batch reporting zero input weight. -/
def zeroInputYieldItem : YieldItemRaw :=
  ⟨"BATCH-1", "beef", JNum.num 0, JNum.num 0, JNum.num 0, "2026-01-01"⟩

/-- An order whose `total_price` is a non-numeric string. -/
def badPriceOrder : JOrder := ⟨JVal.vstr "N/A", some []⟩

/-- An order with one line item whose `price` field is absent. -/
def missingItemPriceOrder : JOrder :=
  ⟨JVal.vnum (JNum.num 10), some [⟨JNum.num 2, JVal.vundef, "Sausages", none⟩]⟩

/-- A production batch with zero input weight but positive output. -/
def posOutputYieldItem : YieldItemRaw :=
  ⟨"BATCH-2", "pork", JNum.num 0, JNum.num 5, JNum.num 0, "2026-01-02"⟩

/-- Witness finance thresholds. -/
def wFinThresholds : FinanceThresholds := ⟨10, 20, 25, 10⟩

/-- Witness finance report: margin 12% (below the 20% critical
boundary), revenue down 50%, AOV down 20%. -/
def wFinReport : FinanceReport :=
  { period := "daily"
    sales := ⟨JNum.num 1000, 10, JNum.num 100, JNum.num 2000, JNum.num (-1000),
      JNum.num (-50), some (JNum.num (-20))⟩
    margins := ⟨JNum.num 880, JNum.num 120, JNum.num 12⟩
    top_products := []
    alerts := [] }

/-- Witness operations thresholds. -/
def wOpsThresholds : OperationsThresholds := ⟨500000, 550000, 70, 80, 10, 5, 95⟩

/-- Witness operations report: stock below the critical boundary, two
items below reorder, yield 75% (warning tier), waste 12% (critical
tier), dispatch completion 90% (below the 95% warning boundary). -/
def wOpsReport : OperationsReport :=
  { stock := ⟨JNum.num 485000, 100, 2,
      [⟨"Beef Box", JNum.num 5, JNum.num 10, JNum.num 0⟩,
       ⟨"Pork Chops", JNum.num 1, JNum.num 8, JNum.num 4⟩]⟩
    production := ⟨3, JNum.num 75, JNum.num 12, []⟩
    warehouse := ⟨10, 9, 1, JNum.num 90⟩
    purchase_orders :=
      [⟨"PO-1", "Supplier A", JNum.num 100, "2026-01-02"⟩,
       ⟨"PO-2", "Supplier B", JNum.num 200, "2026-01-03"⟩,
       ⟨"PO-3", "Supplier C", JNum.num 300, "2026-01-04"⟩]
    alerts := [] }

/-- Witness marketing thresholds. -/
def wMktThresholds : MarketingThresholds := ⟨15, 20, 1, 2⟩

/-- Witness weekly marketing report: open rate 12% (critical tier),
click rate fine, a high-performing top campaign, open rate trending
down. -/
def wMktReport : MarketingReport :=
  { period := "weekly"
    campaigns := ⟨2, 1000, 12, 3, 500, 0⟩
    top_campaigns := [⟨"Campaign A", 1200, 30, 5⟩]
    performance_trends := ⟨Trend.down, Trend.stable, Trend.up⟩
    alerts := [] }

/-- Witness finance report carrying its own generated alerts. -/
def wFinReportA : FinanceReport :=
  { wFinReport with alerts := financeAlerts wFinThresholds wFinReport }

/-- Witness operations report carrying its own generated alerts. -/
def wOpsReportA : OperationsReport :=
  { wOpsReport with alerts := operationsAlerts wOpsThresholds wOpsReport }

/-- Witness weekly marketing report carrying its own generated alerts. -/
def wMktReportA : MarketingReport :=
  { wMktReport with alerts := marketingAlerts wMktThresholds wMktReport }

/-- Witness campaign list: six campaigns with wildly different recipient
counts, a revenue tie between Campaign B and Campaign C, and average
open rate 30 and average click rate 3.5. -/
def wCampaigns : List Campaign :=
  [⟨"c1", "Campaign A", ⟨10, 10, 8, 5, 4, 10, 2, 500⟩⟩,
   ⟨"c2", "Campaign B", ⟨1000000, 50000, 40000, 9000, 8000, 20, 4, 700⟩⟩,
   ⟨"c3", "Campaign C", ⟨50, 30, 25, 9, 8, 30, 6, 700⟩⟩,
   ⟨"c4", "Campaign D", ⟨200, 20, 15, 6, 5, 40, 1, 100⟩⟩,
   ⟨"c5", "Campaign E", ⟨300, 40, 35, 12, 10, 50, 3, 900⟩⟩,
   ⟨"c6", "Campaign F", ⟨400, 50, 45, 15, 12, 30, 5, 300⟩⟩]

/-- Witness marketing snapshots for the daily digest. -/
def wSnapshot : MarketingSnapshot :=
  generateDailySnapshot (getPerformanceSummary wCampaigns)

/-- A second, different marketing snapshot. -/
def wSnapshot2 : MarketingSnapshot := ⟨"daily", 0, 0, 0, 0⟩

/-- Witness product accumulator list: 15 products with a revenue tie
between P02 and P04. -/
def wProducts : List (String × ProductAgg) :=
  [("P01", ⟨JNum.num 1, JNum.num 5⟩), ("P02", ⟨JNum.num 1, JNum.num 12⟩),
   ("P03", ⟨JNum.num 1, JNum.num 7⟩), ("P04", ⟨JNum.num 1, JNum.num 12⟩),
   ("P05", ⟨JNum.num 1, JNum.num 3⟩), ("P06", ⟨JNum.num 1, JNum.num 20⟩),
   ("P07", ⟨JNum.num 1, JNum.num 1⟩), ("P08", ⟨JNum.num 1, JNum.num 9⟩),
   ("P09", ⟨JNum.num 1, JNum.num 15⟩), ("P10", ⟨JNum.num 1, JNum.num 4⟩),
   ("P11", ⟨JNum.num 1, JNum.num 11⟩), ("P12", ⟨JNum.num 1, JNum.num 8⟩),
   ("P13", ⟨JNum.num 1, JNum.num 2⟩), ("P14", ⟨JNum.num 1, JNum.num 13⟩),
   ("P15", ⟨JNum.num 1, JNum.num 6⟩)]

/-! ## Lemmas about the stable descending sort -/

section SortLemmas

variable {κ α : Type} (ltb : κ → κ → Bool) (key : α → κ)

lemma mem_insertDesc {a x : α} :
    ∀ {l : List α}, a ∈ insertDesc ltb key x l ↔ a = x ∨ a ∈ l := by
  intro l
  induction l with
  | nil => simp [insertDesc]
  | cons y ys ih =>
      rw [insertDesc]
      split
      · rw [List.mem_cons, ih, List.mem_cons]
        tauto
      · rw [List.mem_cons, List.mem_cons]

lemma insertDesc_perm (x : α) :
    ∀ (l : List α), (insertDesc ltb key x l).Perm (x :: l) := by
  intro l
  induction l with
  | nil => exact List.Perm.refl _
  | cons y ys ih =>
      rw [insertDesc]
      split
      · exact (ih.cons y).trans (List.Perm.swap x y ys)
      · exact List.Perm.refl _

lemma sortDesc_perm : ∀ (l : List α), (sortDesc ltb key l).Perm l := by
  intro l
  induction l with
  | nil => exact List.Perm.refl _
  | cons x xs ih =>
      rw [sortDesc]
      exact (insertDesc_perm ltb key x (sortDesc ltb key xs)).trans (ih.cons x)

lemma pairwise_insertDesc (P : κ → Prop)
    (hasym : ∀ a b, ltb a b = true → ltb b a = false)
    (hnt : ∀ a b c, P a → P b → P c →
      ltb a b = false → ltb b c = false → ltb a c = false)
    (x : α) (hx : P (key x)) :
    ∀ (l : List α), (∀ y ∈ l, P (key y)) →
      l.Pairwise (fun a b => ltb (key a) (key b) = false) →
      (insertDesc ltb key x l).Pairwise (fun a b => ltb (key a) (key b) = false) := by
  intro l
  induction l with
  | nil => intro _ _; simp [insertDesc]
  | cons y ys ih =>
      intro hmem hp
      rw [List.pairwise_cons] at hp
      rw [insertDesc]
      split
      · rename_i hlt
        rw [List.pairwise_cons]
        refine ⟨?_, ih (fun z hz => hmem z (List.mem_cons_of_mem y hz)) hp.2⟩
        intro z hz
        rcases (mem_insertDesc ltb key).mp hz with rfl | hzys
        · exact hasym _ _ hlt
        · exact hp.1 z hzys
      · rename_i hnlt
        have hxy : ltb (key x) (key y) = false := by
          revert hnlt
          cases ltb (key x) (key y) <;> simp
        rw [List.pairwise_cons]
        refine ⟨?_, List.pairwise_cons.mpr hp⟩
        intro z hz
        rcases List.mem_cons.mp hz with rfl | hzys
        · exact hxy
        · exact hnt _ _ _ hx (hmem y (List.mem_cons_self y ys))
            (hmem z (List.mem_cons_of_mem y hzys)) hxy (hp.1 z hzys)

lemma pairwise_sortDesc (P : κ → Prop)
    (hasym : ∀ a b, ltb a b = true → ltb b a = false)
    (hnt : ∀ a b c, P a → P b → P c →
      ltb a b = false → ltb b c = false → ltb a c = false) :
    ∀ (l : List α), (∀ y ∈ l, P (key y)) →
      (sortDesc ltb key l).Pairwise (fun a b => ltb (key a) (key b) = false) := by
  intro l
  induction l with
  | nil => intro _; simp [sortDesc]
  | cons x xs ih =>
      intro hmem
      rw [sortDesc]
      refine pairwise_insertDesc ltb key P hasym hnt x
        (hmem x (List.mem_cons_self x xs)) _ ?_
        (ih (fun y hy => hmem y (List.mem_cons_of_mem x hy)))
      intro y hy
      exact hmem y (List.mem_cons_of_mem x
        ((sortDesc_perm ltb key xs).mem_iff.mp hy))

variable [DecidableEq κ]

lemma filter_insertDesc (hirr : ∀ k, ltb k k = false) (x : α) (q : κ) :
    ∀ (l : List α),
      (insertDesc ltb key x l).filter (fun a => decide (key a = q)) =
        if key x = q then x :: l.filter (fun a => decide (key a = q))
        else l.filter (fun a => decide (key a = q)) := by
  intro l
  induction l with
  | nil =>
      rw [insertDesc]
      split <;> simp_all [List.filter]
  | cons y ys ih =>
      rw [insertDesc]
      split
      · rename_i hlt
        by_cases hx : key x = q
        · have hy : ¬(key y = q) := by
            intro hyq
            rw [hx, ← hyq, hirr (key y)] at hlt
            exact Bool.false_ne_true hlt
          rw [List.filter_cons, List.filter_cons, ih]
          simp [hx, hy]
        · rw [List.filter_cons, List.filter_cons, ih]
          simp [hx]
      · rw [List.filter_cons]
        by_cases hx : key x = q <;> simp [hx]

lemma filter_sortDesc (hirr : ∀ k, ltb k k = false) (q : κ) :
    ∀ (l : List α),
      (sortDesc ltb key l).filter (fun a => decide (key a = q)) =
        l.filter (fun a => decide (key a = q)) := by
  intro l
  induction l with
  | nil => rfl
  | cons x xs ih =>
      rw [sortDesc, filter_insertDesc ltb key hirr x q, List.filter_cons]
      by_cases hx : key x = q <;> simp [hx, ih]

/-- The stable descending sort satisfies the `RankedBy` contract. -/
lemma sortDesc_rankedBy (P : κ → Prop)
    (hasym : ∀ a b, ltb a b = true → ltb b a = false)
    (hnt : ∀ a b c, P a → P b → P c →
      ltb a b = false → ltb b c = false → ltb a c = false)
    (hirr : ∀ k, ltb k k = false)
    (l : List α) (hmem : ∀ y ∈ l, P (key y)) :
    RankedBy ltb key l (sortDesc ltb key l) :=
  ⟨sortDesc_perm ltb key l,
   pairwise_sortDesc ltb key P hasym hnt l hmem,
   fun q => filter_sortDesc ltb key hirr q l⟩

end SortLemmas

/-- `JNum.lt` is asymmetric. -/
lemma JNum.lt_asymm (a b : JNum) : JNum.lt a b = true → JNum.lt b a = false := by
  cases a <;> cases b <;> simp [JNum.lt]
  exact fun h => le_of_lt h

/-- `JNum.lt` is irreflexive. -/
lemma JNum.lt_irrefl (a : JNum) : JNum.lt a a = false := by
  cases a <;> simp [JNum.lt]

/-- Negative transitivity of `JNum.lt` on ordinary numbers. -/
lemma JNum.lt_neg_trans (a b c : JNum) (ha : a.isNum = true) (hb : b.isNum = true)
    (hc : c.isNum = true) (hab : JNum.lt a b = false) (hbc : JNum.lt b c = false) :
    JNum.lt a c = false := by
  cases a <;> cases b <;> cases c <;> simp_all [JNum.lt, JNum.isNum]
  exact le_trans hbc hab

lemma qlt_asymm (a b : ℚ) : qlt a b = true → qlt b a = false := by
  simp [qlt]
  exact fun h => le_of_lt h

lemma qlt_irrefl (a : ℚ) : qlt a a = false := by simp [qlt]

lemma qlt_neg_trans (a b c : ℚ) (hab : qlt a b = false) (hbc : qlt b c = false) :
    qlt a c = false := by
  simp_all [qlt]
  exact le_trans hbc hab

/-! ## Lemmas about the two-tier alert blocks -/

lemma mem_ite_one {a x : Alert} {c : Prop} [Decidable c]
    (h : a ∈ (if c then [x] else ([] : List Alert))) : a = x := by
  split at h <;> simp_all

lemma mem_ite_two {a x y : Alert} {c w : Prop} [Decidable c] [Decidable w]
    (h : a ∈ (if c then [x] else if w then [y] else ([] : List Alert))) :
    a = x ∨ a = y := by
  split at h
  · simp_all
  · split at h <;> simp_all

/-- A two-tier `if / else if` alert block, surrounded by alerts of other
types, satisfies the mutual-exclusion contract for its type. -/
lemma twoTier_block (t : String) (c w : Prop) [Decidable c] [Decidable w]
    (pre post : List Alert)
    (hpre : ∀ a ∈ pre, ¬(a.type = t)) (hpost : ∀ a ∈ post, ¬(a.type = t)) :
    twoTierOk (pre ++ ((if c then [⟨t, Severity.critical⟩]
      else if w then [⟨t, Severity.warning⟩] else []) ++ post)) t c := by
  have hf : ∀ (l : List Alert), (∀ a ∈ l, ¬(a.type = t)) →
      l.filter (fun a => decide (a.type = t)) = [] := by
    intro l hl
    rw [List.filter_eq_nil_iff]
    intro a ha
    simp [hl a ha]
  have hfpre := hf pre hpre
  have hfpost := hf post hpost
  have hcp : Alert.mk t Severity.critical ∉ pre := fun h => hpre _ h rfl
  have hcq : Alert.mk t Severity.critical ∉ post := fun h => hpost _ h rfl
  have hwp : Alert.mk t Severity.warning ∉ pre := fun h => hpre _ h rfl
  have hwq : Alert.mk t Severity.warning ∉ post := fun h => hpost _ h rfl
  unfold twoTierOk
  by_cases hc : c
  · rw [if_pos hc]
    have hfl : (pre ++ ([Alert.mk t Severity.critical] ++ post)).filter
        (fun a => decide (a.type = t)) = [Alert.mk t Severity.critical] := by
      rw [List.filter_append, List.filter_append, hfpre, hfpost]
      simp [List.filter]
    refine ⟨?_, fun _ => hfl, fun hnc => absurd hc hnc, ?_⟩
    · rw [hfl]; exact Nat.le_refl 1
    · rintro ⟨_, hwmem⟩
      rcases List.mem_append.mp hwmem with h | h
      · exact hwp h
      rcases List.mem_append.mp h with h | h
      · simp at h
      · exact hwq h
  · rw [if_neg hc]
    have hcritnot : Alert.mk t Severity.critical ∉
        pre ++ ((if w then [Alert.mk t Severity.warning] else []) ++ post) := by
      intro h
      rcases List.mem_append.mp h with h | h
      · exact hcp h
      rcases List.mem_append.mp h with h | h
      · have hx := mem_ite_one h
        simp at hx
      · exact hcq h
    refine ⟨?_, fun hcc => absurd hcc hc, fun _ => hcritnot, fun hp => hcritnot hp.1⟩
    by_cases hw : w
    · rw [if_pos hw, List.filter_append, List.filter_append, hfpre, hfpost]
      simp [List.filter]
    · rw [if_neg hw, List.filter_append, List.filter_append, hfpre, hfpost]
      simp

/-- The high-performing-campaign block only ever contains its own alert. -/
lemma mem_hp_block {a : Alert} {tcs : List TopCampaign}
    (h : a ∈ (match tcs with
      | c :: _ =>
          if 1000 < c.revenue then [Alert.mk "high_performing_campaign" Severity.info]
          else ([] : List Alert)
      | [] => ([] : List Alert))) :
    a = Alert.mk "high_performing_campaign" Severity.info := by
  cases tcs with
  | nil => simp_all
  | cons c rest => exact mem_ite_one h

/-! ## Lemmas about the digest buckets and averages -/

lemma bucketPartition_filter (l : List Alert) :
    bucketPartition
      ⟨l.filter (sevIs Severity.critical), l.filter (sevIs Severity.warning)⟩ l := by
  unfold bucketPartition sevIs
  refine ⟨?_, ?_, ?_, ?_, ?_, ?_⟩ <;> intros <;> simp_all [List.mem_filter]

lemma foldl_add_eq_sum {β : Type} (f : β → ℚ) :
    ∀ (l : List β) (a : ℚ), l.foldl (fun s c => s + f c) a = a + (l.map f).sum := by
  intro l
  induction l with
  | nil => intro a; simp
  | cons x xs ih => intro a; simp [ih, add_assoc]

/-! ## Claim theorems -/

/-- C5: `calculateTrend` returns `stable` whenever the previous value is
0; otherwise, with pctChange = (current - previous) / previous * 100, it
returns `up` iff pctChange > 5, `down` iff pctChange < -5, and `stable`
otherwise — the ±5% boundary is exclusive. -/
theorem calculateTrend_spec (current previous : ℚ) :
    (previous = 0 → calculateTrend current previous = Trend.stable) ∧
    (previous ≠ 0 →
      ((calculateTrend current previous = Trend.up ↔
          5 < (current - previous) / previous * 100) ∧
        (calculateTrend current previous = Trend.down ↔
          (current - previous) / previous * 100 < -5) ∧
        (calculateTrend current previous = Trend.stable ↔
          -5 ≤ (current - previous) / previous * 100 ∧
            (current - previous) / previous * 100 ≤ 5))) := by
  by_cases hp : previous = 0
  · refine ⟨fun _ => by simp [calculateTrend, hp], fun h => absurd hp h⟩
  · refine ⟨fun h => absurd h hp, fun _ => ?_⟩
    by_cases h1 : (current - previous) / previous * 100 > 5
    · have ht : calculateTrend current previous = Trend.up := by
        simp [calculateTrend, hp, h1]
      rw [ht]
      refine ⟨by simp [h1], by simp; linarith, by simp; intro h5; linarith⟩
    · by_cases h2 : (current - previous) / previous * 100 < -5
      · have ht : calculateTrend current previous = Trend.down := by
          simp [calculateTrend, hp, h1, h2]
        rw [ht]
        refine ⟨by simp; linarith, by simp [h2], by simp; intro h5; linarith⟩
      · have ht : calculateTrend current previous = Trend.stable := by
          simp [calculateTrend, hp, h1, h2]
        rw [ht]
        refine ⟨by simp; linarith, by simp; linarith,
          by simp [not_lt.mp h2, not_lt.mp h1]⟩

/-- C10: for a non-empty campaign list the summary's average open and
click rates are the unweighted arithmetic means of the per-campaign
rates (recipient counts do not enter), and both are 0 for an empty
list. -/
theorem average_rates_unweighted_mean (campaigns : List Campaign) :
    (campaigns = [] → (getPerformanceSummary campaigns).average_open_rate = 0 ∧
      (getPerformanceSummary campaigns).average_click_rate = 0) ∧
    (campaigns ≠ [] →
      (getPerformanceSummary campaigns).average_open_rate =
        (campaigns.map (fun c => c.metrics.open_rate)).sum / campaigns.length ∧
      (getPerformanceSummary campaigns).average_click_rate =
        (campaigns.map (fun c => c.metrics.click_rate)).sum / campaigns.length) := by
  constructor
  · rintro rfl
    simp [getPerformanceSummary]
  · intro h
    have hlen : 0 < campaigns.length := List.length_pos.mpr h
    constructor <;> simp [getPerformanceSummary, hlen, foldl_add_eq_sum]

/-- C8: digest generation succeeds iff every domain fetch succeeds; a
single failing fetch fails the whole run with that failure and no
partial digest is produced (daily and weekly flows). -/
theorem digest_all_or_nothing
    (ef : Except String FinanceReport) (eo : Except String OperationsReport)
    (em : Except String MarketingSnapshot) (ew : Except String MarketingReport) :
    ((∃ d, generateDailyDigestRun ef eo em = Except.ok d) ↔
      (∃ f, ef = Except.ok f) ∧ (∃ o, eo = Except.ok o) ∧ (∃ m, em = Except.ok m)) ∧
    (∀ e, ef = Except.error e → generateDailyDigestRun ef eo em = Except.error e) ∧
    (∀ e, eo = Except.error e → (∃ f, ef = Except.ok f) →
      generateDailyDigestRun ef eo em = Except.error e) ∧
    (∀ e, em = Except.error e → (∃ f, ef = Except.ok f) → (∃ o, eo = Except.ok o) →
      generateDailyDigestRun ef eo em = Except.error e) ∧
    ((∃ d, generateWeeklySummaryRun ef eo ew = Except.ok d) ↔
      (∃ f, ef = Except.ok f) ∧ (∃ o, eo = Except.ok o) ∧ (∃ m, ew = Except.ok m)) ∧
    (∀ e, ef = Except.error e → generateWeeklySummaryRun ef eo ew = Except.error e) ∧
    (∀ e, eo = Except.error e → (∃ f, ef = Except.ok f) →
      generateWeeklySummaryRun ef eo ew = Except.error e) ∧
    (∀ e, ew = Except.error e → (∃ f, ef = Except.ok f) → (∃ o, eo = Except.ok o) →
      generateWeeklySummaryRun ef eo ew = Except.error e) := by
  cases ef <;> cases eo <;> cases em <;> cases ew <;>
    simp [generateDailyDigestRun, generateWeeklySummaryRun, Except.bind]

/-- C9: the daily digest's top-level alert buckets draw only from the
finance and operations reports; the marketing daily snapshot carries no
alerts field at all, so the buckets are independent of the snapshot. -/
theorem daily_alerts_exclude_marketing (fr : FinanceReport) (orp : OperationsReport)
    (ms ms' : MarketingSnapshot) :
    (∀ a ∈ (generateDailyDigest fr orp ms).alerts.critical, a ∈ fr.alerts ++ orp.alerts) ∧
    (∀ a ∈ (generateDailyDigest fr orp ms).alerts.warning, a ∈ fr.alerts ++ orp.alerts) ∧
    (generateDailyDigest fr orp ms).alerts = (generateDailyDigest fr orp ms').alerts ∧
    (∀ (s : PerformanceSummary),
      (generateDailyDigest fr orp (generateDailySnapshot s)).alerts =
        (generateDailyDigest fr orp ms).alerts) := by
  refine ⟨?_, ?_, rfl, fun s => rfl⟩ <;>
    exact fun a ha => (List.mem_filter.mp ha).1

/-- C3: each digest's top-level alert structure is a strict partition of
the merged domain alert lists by severity: the critical bucket holds
exactly critical alerts, the warning bucket exactly warning alerts, the
buckets are disjoint and info alerts appear in neither (daily and weekly
flows). -/
theorem digest_alert_partition (fr : FinanceReport) (orp : OperationsReport)
    (ms : MarketingSnapshot) (mr : MarketingReport) :
    bucketPartition (generateDailyDigest fr orp ms).alerts
      (fr.alerts ++ orp.alerts) ∧
    bucketPartition (generateWeeklySummary fr orp mr).alerts
      (fr.alerts ++ orp.alerts ++ mr.alerts) := by
  exact ⟨bucketPartition_filter (fr.alerts ++ orp.alerts),
    bucketPartition_filter (fr.alerts ++ orp.alerts ++ mr.alerts)⟩

/-- C4: the action-item synthesizer is the concatenation, in fixed rule
order, of five rules each emitting at most one action; rule 1 names at
most the first 3 products below reorder level, rule 2 at most the first
2 open PO numbers, and rule 5 fires only when a marketing summary is
present. -/
theorem generateActionItems_rule_structure (fr : FinanceReport)
    (orp : OperationsReport) (m : Option MarketingReport) :
    generateActionItems fr orp m =
      actionRule1 orp ++ actionRule2 orp ++ actionRule3 fr ++
        actionRule4 orp ++ actionRule5 m ∧
    (actionRule1 orp).length ≤ 1 ∧ (actionRule2 orp).length ≤ 1 ∧
    (actionRule3 fr).length ≤ 1 ∧ (actionRule4 orp).length ≤ 1 ∧
    (actionRule5 m).length ≤ 1 ∧
    (∀ a ∈ actionRule1 orp, a.priority = "high" ∧ a.department = "operations" ∧
      a.named = (orp.stock.reorder_alerts.take 3).map (fun i => i.product) ∧
      a.named.length ≤ 3) ∧
    (0 < orp.stock.items_below_reorder → orp.stock.reorder_alerts ≠ [] →
      (actionRule1 orp).length = 1) ∧
    (∀ a ∈ actionRule2 orp, a.priority = "medium" ∧ a.department = "finance" ∧
      a.named = (orp.purchase_orders.take 2).map (fun po => po.po_number) ∧
      a.named.length ≤ 2) ∧
    (orp.purchase_orders ≠ [] → (actionRule2 orp).length = 1) ∧
    (JNum.lt fr.margins.margin_percentage (JNum.num 15) = true →
      actionRule3 fr = [⟨"high", "finance", []⟩]) ∧
    (JNum.lt orp.production.average_yield_percentage (JNum.num 80) = true →
      actionRule4 orp = [⟨"high", "operations", []⟩]) ∧
    (m = none → actionRule5 m = []) ∧
    (∀ mr, m = some mr → mr.campaigns.average_open_rate < 15 →
      actionRule5 m = [⟨"medium", "marketing", []⟩]) := by
  refine ⟨rfl, ?_, ?_, ?_, ?_, ?_, ?_, ?_, ?_, ?_, ?_, ?_, ?_, ?_⟩
  · simp only [actionRule1]
    split_ifs <;> simp
  · simp only [actionRule2]
    split_ifs <;> simp
  · simp only [actionRule3]
    split_ifs <;> simp
  · simp only [actionRule4]
    split_ifs <;> simp
  · rcases m with _ | mr
    · simp [actionRule5]
    · simp only [actionRule5]
      split_ifs <;> simp
  · intro a ha
    simp only [actionRule1] at ha
    split_ifs at ha with h1 h2
    · simp only [List.mem_singleton] at ha
      subst ha
      refine ⟨rfl, rfl, rfl, ?_⟩
      rw [List.length_map, List.length_take]
      exact min_le_left _ _
    · simp at ha
    · simp at ha
  · intro h1 h2
    simp only [actionRule1]
    have hlen : 0 < (orp.stock.reorder_alerts.take 3).length := by
      rw [List.length_take]
      have := List.length_pos.mpr h2
      omega
    rw [if_pos h1, if_pos hlen]
    rfl
  · intro a ha
    simp only [actionRule2] at ha
    split_ifs at ha with h1
    · simp only [List.mem_singleton] at ha
      subst ha
      refine ⟨rfl, rfl, rfl, ?_⟩
      rw [List.length_map, List.length_take]
      exact min_le_left _ _
    · simp at ha
  · intro h
    simp only [actionRule2]
    rw [if_pos (List.length_pos.mpr h)]
    rfl
  · intro h
    simp only [actionRule3]
    rw [if_pos h]
  · intro h
    simp only [actionRule4]
    rw [if_pos h]
  · rintro rfl
    rfl
  · rintro mr rfl h
    simp only [actionRule5]
    rw [if_pos h]

/-- C2: for every metric summary and threshold configuration, each
two-tier metric (margin %, stock value, yield %, waste %, open rate,
click rate) contributes at most one alert per run: when its critical
boundary fires, exactly one critical alert is emitted and no warning
alert for the same metric; the warning tier is reachable only when the
critical boundary does not fire; no metric ever emits both severities. -/
theorem alerts_two_tier_exclusive
    (fth : FinanceThresholds) (fr : FinanceReport)
    (oth : OperationsThresholds) (orp : OperationsReport)
    (mth : MarketingThresholds) (mr : MarketingReport) :
    twoTierOk (financeAlerts fth fr) "margin_low"
      (JNum.lt fr.margins.margin_percentage
        (JNum.num fth.margin_critical_percentage) = true) ∧
    twoTierOk (operationsAlerts oth orp) "stock_value_low"
      (JNum.lt orp.stock.total_value (JNum.num oth.stock_value_critical) = true) ∧
    twoTierOk (operationsAlerts oth orp) "yield_low"
      (JNum.lt orp.production.average_yield_percentage
        (JNum.num oth.yield_critical_percentage) = true) ∧
    twoTierOk (operationsAlerts oth orp) "waste_high"
      (JNum.lt (JNum.num oth.waste_critical_percentage)
        orp.production.waste_percentage = true) ∧
    twoTierOk (marketingAlerts mth mr) "low_open_rate"
      (mr.campaigns.average_open_rate < mth.open_rate_critical) ∧
    twoTierOk (marketingAlerts mth mr) "low_click_rate"
      (mr.campaigns.average_click_rate < mth.click_rate_critical) := by
  refine ⟨?_, ?_, ?_, ?_, ?_, ?_⟩
  · unfold financeAlerts
    rw [List.append_assoc]
    refine twoTier_block _ _ _ _ _ ?_ ?_
    · intro a ha
      rcases mem_ite_one ha with rfl
      decide
    · intro a ha
      rcases mem_ite_one ha with rfl
      decide
  · unfold operationsAlerts
    rw [List.append_assoc, List.append_assoc, List.append_assoc]
    refine twoTier_block _ _ _ [] _ (fun a ha => absurd ha (List.not_mem_nil a)) ?_
    intro a ha
    rcases List.mem_append.mp ha with h | h
    · rcases mem_ite_one h with rfl
      decide
    rcases List.mem_append.mp h with h | h
    · rcases mem_ite_two h with rfl | rfl <;> decide
    rcases List.mem_append.mp h with h | h
    · rcases mem_ite_two h with rfl | rfl <;> decide
    · rcases mem_ite_one h with rfl
      decide
  · unfold operationsAlerts
    rw [List.append_assoc, List.append_assoc]
    refine twoTier_block _ _ _ _ _ ?_ ?_
    · intro a ha
      rcases List.mem_append.mp ha with h | h
      · rcases mem_ite_two h with rfl | rfl <;> decide
      · rcases mem_ite_one h with rfl
        decide
    · intro a ha
      rcases List.mem_append.mp ha with h | h
      · rcases mem_ite_two h with rfl | rfl <;> decide
      · rcases mem_ite_one h with rfl
        decide
  · unfold operationsAlerts
    rw [List.append_assoc]
    refine twoTier_block _ _ _ _ _ ?_ ?_
    · intro a ha
      rcases List.mem_append.mp ha with h | h
      · rcases List.mem_append.mp h with h | h
        · rcases mem_ite_two h with rfl | rfl <;> decide
        · rcases mem_ite_one h with rfl
          decide
      · rcases mem_ite_two h with rfl | rfl <;> decide
    · intro a ha
      rcases mem_ite_one ha with rfl
      decide
  · unfold marketingAlerts
    rw [List.append_assoc, List.append_assoc, List.append_assoc]
    refine twoTier_block _ _ _ [] _ (fun a ha => absurd ha (List.not_mem_nil a)) ?_
    intro a ha
    rcases List.mem_append.mp ha with h | h
    · rcases mem_ite_two h with rfl | rfl <;> decide
    rcases List.mem_append.mp h with h | h
    · rcases hm : mr.top_campaigns with _ | ⟨c0, rest⟩
      · rw [hm] at h
        simp at h
      · rw [hm] at h
        rcases mem_ite_one h with rfl
        decide
    rcases List.mem_append.mp h with h | h
    · rcases mem_ite_one h with rfl
      decide
    · rcases mem_ite_one h with rfl
      decide
  · unfold marketingAlerts
    rw [List.append_assoc, List.append_assoc, List.append_assoc]
    refine twoTier_block _ _ _ _ _ ?_ ?_
    · intro a ha
      rcases mem_ite_two ha with rfl | rfl <;> decide
    · intro a ha
      rcases List.mem_append.mp ha with h | h
      · rcases hm : mr.top_campaigns with _ | ⟨c0, rest⟩
        · rw [hm] at h
          simp at h
        · rw [hm] at h
          rcases mem_ite_one h with rfl
          decide
      rcases List.mem_append.mp h with h | h
      · rcases mem_ite_one h with rfl
        decide
      · rcases mem_ite_one h with rfl
        decide

/-- C1: evaluation of the aggregation on a batch with zero input weight.
The summary-level ratios are guarded (0 on a zero denominator), and the
sales-side margin and average order value are also guarded, but the
per-batch `yield_percentage` of `_getYieldDataAPI` and the per-type
`yield_pct` of `getYieldSummary` are unguarded divisions: a zero input
weight yields NaN (0/0) or Infinity, not 0, refuting the claim for
those two ratio fields. -/
theorem aptean_unguarded_ratio_eval :
    ((getYieldDataAPI [zeroInputYieldItem]).map (fun r => r.yield_percentage) =
      [JNum.nan]) ∧
    ((getYieldDataAPI [posOutputYieldItem]).map (fun r => r.yield_percentage) =
      [JNum.inf]) ∧
    (getYieldSummary (getYieldDataAPI [zeroInputYieldItem])).average_yield_percentage
      = JNum.num 0 ∧
    (getYieldSummary (getYieldDataAPI [zeroInputYieldItem])).waste_percentage
      = JNum.num 0 ∧
    ((getYieldSummary (getYieldDataAPI [zeroInputYieldItem])).by_product_type.map
      (fun p => p.2.yield_pct)) = [JNum.nan] ∧
    (getSalesMetrics []).margin_percentage = JNum.num 0 ∧
    (getSalesMetrics []).average_order_value = JNum.num 0 ∧
    JNum.nan ≠ JNum.num 0 ∧ JNum.inf ≠ JNum.num 0 := by
  with_unfolding_all decide

/-- C7: the ranked sub-aggregates are stable descending sorts on the
ranking field truncated to a fixed N: the top products are the first 10
of a stable descending sort of the product aggregates by revenue (so 15
products yield exactly 10), the top campaigns the first 5 by revenue;
the sort is a permutation, descending, with ties kept in original record
order, and nothing dropped outranks anything kept. -/
theorem ranked_topN_stable (products : List (String × ProductAgg))
    (campaigns : List Campaign)
    (hp : ∀ p ∈ products, (p.2.revenue).isNum = true) :
    topProductsOf products =
      (sortDesc JNum.lt (fun p => p.2.revenue) products).take 10 ∧
    RankedBy JNum.lt (fun p : String × ProductAgg => p.2.revenue) products
      (sortDesc JNum.lt (fun p => p.2.revenue) products) ∧
    (topProductsOf products).length = min 10 products.length ∧
    (∀ a ∈ topProductsOf products,
      ∀ b ∈ (sortDesc JNum.lt (fun p => p.2.revenue) products).drop 10,
        JNum.lt a.2.revenue b.2.revenue = false) ∧
    (getPerformanceSummary campaigns).top_campaigns =
      ((sortDesc qlt (fun c => c.metrics.revenue) campaigns).take 5).map
        (fun c => ⟨c.name, c.metrics.revenue, c.metrics.open_rate,
          c.metrics.click_rate⟩) ∧
    RankedBy qlt (fun c : Campaign => c.metrics.revenue) campaigns
      (sortDesc qlt (fun c => c.metrics.revenue) campaigns) ∧
    (getPerformanceSummary campaigns).top_campaigns.length = min 5 campaigns.length ∧
    (∀ a ∈ (sortDesc qlt (fun c => c.metrics.revenue) campaigns).take 5,
      ∀ b ∈ (sortDesc qlt (fun c => c.metrics.revenue) campaigns).drop 5,
        qlt a.metrics.revenue b.metrics.revenue = false) := by
  have hrp : RankedBy JNum.lt (fun p : String × ProductAgg => p.2.revenue) products
      (sortDesc JNum.lt (fun p => p.2.revenue) products) :=
    sortDesc_rankedBy JNum.lt (fun p => p.2.revenue) (fun k => k.isNum = true)
      JNum.lt_asymm JNum.lt_neg_trans JNum.lt_irrefl products hp
  have hrc : RankedBy qlt (fun c : Campaign => c.metrics.revenue) campaigns
      (sortDesc qlt (fun c => c.metrics.revenue) campaigns) :=
    sortDesc_rankedBy qlt (fun c => c.metrics.revenue) (fun _ => True)
      qlt_asymm (fun a b c _ _ _ => qlt_neg_trans a b c) qlt_irrefl campaigns
      (fun _ _ => trivial)
  have hlenp : (sortDesc JNum.lt (fun p => p.2.revenue) products).length =
      products.length := hrp.1.length_eq
  have hlenc : (sortDesc qlt (fun c => c.metrics.revenue) campaigns).length =
      campaigns.length := hrc.1.length_eq
  have hcrossp : ∀ a ∈ (sortDesc JNum.lt (fun p => p.2.revenue) products).take 10,
      ∀ b ∈ (sortDesc JNum.lt (fun p => p.2.revenue) products).drop 10,
        JNum.lt a.2.revenue b.2.revenue = false := by
    have hpw := hrp.2.1
    rw [← List.take_append_drop 10
      (sortDesc JNum.lt (fun p => p.2.revenue) products)] at hpw
    exact (List.pairwise_append.mp hpw).2.2
  have hcrossc : ∀ a ∈ (sortDesc qlt (fun c => c.metrics.revenue) campaigns).take 5,
      ∀ b ∈ (sortDesc qlt (fun c => c.metrics.revenue) campaigns).drop 5,
        qlt a.metrics.revenue b.metrics.revenue = false := by
    have hpw := hrc.2.1
    rw [← List.take_append_drop 5
      (sortDesc qlt (fun c => c.metrics.revenue) campaigns)] at hpw
    exact (List.pairwise_append.mp hpw).2.2
  refine ⟨rfl, hrp, ?_, hcrossp, rfl, hrc, ?_, hcrossc⟩
  · show ((sortDesc JNum.lt (fun p => p.2.revenue) products).take 10).length = _
    rw [List.length_take, hlenp]
  · show (((sortDesc qlt (fun c => c.metrics.revenue) campaigns).take 5).map _).length = _
    rw [List.length_map, List.length_take, hlenc]

/-- C6: evaluation of the sales fold on malformed records.  A missing
`total_price` does fall back to 0 through the `|| 0` guard, but a
non-numeric `total_price` string makes `total_revenue` NaN and a line
item with an absent `price` makes `total_cost` NaN — the raw
`parseFloat` coercions propagate NaN, while the repository's own
`safeFloat` cleaner (unused here) would return the typed fallback 0. -/
theorem shopify_nan_propagation_eval :
    (getSalesMetrics [badPriceOrder]).total_revenue = JNum.nan ∧
    (getSalesMetrics [missingItemPriceOrder]).total_cost = JNum.nan ∧
    (getSalesMetrics [⟨JVal.vundef, some []⟩]).total_revenue = JNum.num 0 ∧
    safeFloat (JVal.vstr "N/A") (JNum.num 0) = JNum.num 0 ∧
    safeFloat JVal.vundef (JNum.num 0) = JNum.num 0 ∧
    JNum.nan ≠ JNum.num 0 := by
  with_unfolding_all decide

/-! ## Witnesses: the claim theorems applied at concrete inputs -/

/-- Witness for C5 at the spec's boundary examples. -/
theorem calculateTrend_spec_witness :
    calculateTrend 7 0 = Trend.stable ∧ calculateTrend 105 100 = Trend.stable ∧
    calculateTrend 106 100 = Trend.up ∧ calculateTrend 94 100 = Trend.down := by
  refine ⟨(calculateTrend_spec 7 0).1 rfl, ?_, ?_, ?_⟩
  · exact ((calculateTrend_spec 105 100).2 (by with_unfolding_all decide)).2.2.mpr
      (by with_unfolding_all decide)
  · exact ((calculateTrend_spec 106 100).2 (by with_unfolding_all decide)).1.mpr
      (by with_unfolding_all decide)
  · exact ((calculateTrend_spec 94 100).2 (by with_unfolding_all decide)).2.1.mpr
      (by with_unfolding_all decide)

/-- Witness for C10: six campaigns with wildly different recipient
counts still average to the unweighted means 30 and 3.5. -/
theorem average_rates_unweighted_mean_witness :
    wCampaigns ≠ [] ∧
    (getPerformanceSummary wCampaigns).average_open_rate =
      (wCampaigns.map (fun c => c.metrics.open_rate)).sum / wCampaigns.length ∧
    (getPerformanceSummary wCampaigns).average_open_rate = 30 ∧
    (getPerformanceSummary wCampaigns).average_click_rate = 7 / 2 := by
  refine ⟨by decide, ((average_rates_unweighted_mean wCampaigns).2 (by decide)).1,
    by with_unfolding_all decide, by with_unfolding_all decide⟩

/-- Witness for C8: a failing finance fetch fails the daily digest, a
failing operations fetch fails the weekly summary, and all fetches
succeeding produces a digest. -/
theorem digest_all_or_nothing_witness :
    generateDailyDigestRun (Except.error "shopify: 401") (Except.ok wOpsReportA)
      (Except.ok wSnapshot) = Except.error "shopify: 401" ∧
    generateWeeklySummaryRun (Except.ok wFinReportA)
      (Except.error "orderwise: timeout") (Except.ok wMktReportA) =
      Except.error "orderwise: timeout" ∧
    (∃ d, generateDailyDigestRun (Except.ok wFinReportA) (Except.ok wOpsReportA)
      (Except.ok wSnapshot) = Except.ok d) := by
  refine ⟨?_, ?_, ?_⟩
  · exact (digest_all_or_nothing (Except.error "shopify: 401") (Except.ok wOpsReportA)
      (Except.ok wSnapshot) (Except.ok wMktReportA)).2.1 "shopify: 401" rfl
  · exact (digest_all_or_nothing (Except.ok wFinReportA)
      (Except.error "orderwise: timeout") (Except.ok wSnapshot)
      (Except.ok wMktReportA)).2.2.2.2.2.2.1 "orderwise: timeout" rfl
      ⟨wFinReportA, rfl⟩
  · exact (digest_all_or_nothing (Except.ok wFinReportA) (Except.ok wOpsReportA)
      (Except.ok wSnapshot) (Except.ok wMktReportA)).1.mpr
      ⟨⟨wFinReportA, rfl⟩, ⟨wOpsReportA, rfl⟩, ⟨wSnapshot, rfl⟩⟩

/-- Witness for C9: the daily digest buckets are unchanged when the
marketing snapshot is replaced, and draw only from finance and
operations alerts. -/
theorem daily_alerts_exclude_marketing_witness :
    (generateDailyDigest wFinReportA wOpsReportA wSnapshot).alerts =
      (generateDailyDigest wFinReportA wOpsReportA wSnapshot2).alerts ∧
    (∀ a ∈ (generateDailyDigest wFinReportA wOpsReportA wSnapshot).alerts.critical,
      a ∈ wFinReportA.alerts ++ wOpsReportA.alerts) :=
  ⟨(daily_alerts_exclude_marketing wFinReportA wOpsReportA wSnapshot wSnapshot2).2.2.1,
   (daily_alerts_exclude_marketing wFinReportA wOpsReportA wSnapshot wSnapshot2).1⟩

/-- Witness for C3: the buckets of the witness digests partition the
merged alerts, and evaluate to the expected concrete lists. -/
theorem digest_alert_partition_witness :
    bucketPartition (generateDailyDigest wFinReportA wOpsReportA wSnapshot).alerts
      (wFinReportA.alerts ++ wOpsReportA.alerts) ∧
    bucketPartition
      (generateWeeklySummary wFinReportA wOpsReportA wMktReportA).alerts
      (wFinReportA.alerts ++ wOpsReportA.alerts ++ wMktReportA.alerts) ∧
    (generateDailyDigest wFinReportA wOpsReportA wSnapshot).alerts.critical =
      [⟨"margin_low", Severity.critical⟩, ⟨"stock_value_low", Severity.critical⟩,
       ⟨"waste_high", Severity.critical⟩] ∧
    (generateDailyDigest wFinReportA wOpsReportA wSnapshot).alerts.warning =
      [⟨"revenue_drop", Severity.warning⟩, ⟨"reorder_required", Severity.warning⟩,
       ⟨"yield_low", Severity.warning⟩, ⟨"dispatch_delayed", Severity.warning⟩] :=
  ⟨(digest_alert_partition wFinReportA wOpsReportA wSnapshot wMktReportA).1,
   (digest_alert_partition wFinReportA wOpsReportA wSnapshot wMktReportA).2,
   by with_unfolding_all decide, by with_unfolding_all decide⟩

/-- Witness for C2: the witness thresholds and reports hit the critical
tier for margin, stock value and waste, the warning tier for yield, and
the critical tier for open rate, and each alert list evaluates to the
expected concrete alerts with no metric appearing twice. -/
theorem alerts_two_tier_exclusive_witness :
    (twoTierOk (financeAlerts wFinThresholds wFinReport) "margin_low"
      (JNum.lt wFinReport.margins.margin_percentage
        (JNum.num wFinThresholds.margin_critical_percentage) = true)) ∧
    (twoTierOk (operationsAlerts wOpsThresholds wOpsReport) "stock_value_low"
      (JNum.lt wOpsReport.stock.total_value
        (JNum.num wOpsThresholds.stock_value_critical) = true)) ∧
    financeAlerts wFinThresholds wFinReport =
      [⟨"revenue_drop", Severity.warning⟩, ⟨"margin_low", Severity.critical⟩,
       ⟨"aov_drop", Severity.info⟩] ∧
    operationsAlerts wOpsThresholds wOpsReport =
      [⟨"stock_value_low", Severity.critical⟩, ⟨"reorder_required", Severity.warning⟩,
       ⟨"yield_low", Severity.warning⟩, ⟨"waste_high", Severity.critical⟩,
       ⟨"dispatch_delayed", Severity.warning⟩] ∧
    marketingAlerts wMktThresholds wMktReport =
      [⟨"low_open_rate", Severity.critical⟩,
       ⟨"high_performing_campaign", Severity.info⟩,
       ⟨"trend_alert", Severity.info⟩] :=
  ⟨(alerts_two_tier_exclusive wFinThresholds wFinReport wOpsThresholds wOpsReport
      wMktThresholds wMktReport).1,
   (alerts_two_tier_exclusive wFinThresholds wFinReport wOpsThresholds wOpsReport
      wMktThresholds wMktReport).2.1,
   by with_unfolding_all decide, by with_unfolding_all decide,
   by with_unfolding_all decide⟩

/-- Witness for C4: on the witness reports all five rules fire, in rule
order, naming the first 2 (of 2) reorder products and the first 2 (of 3)
open POs; without a marketing report rule 5 is skipped. -/
theorem generateActionItems_rule_structure_witness :
    generateActionItems wFinReport wOpsReport (some wMktReport) =
      actionRule1 wOpsReport ++ actionRule2 wOpsReport ++ actionRule3 wFinReport ++
        actionRule4 wOpsReport ++ actionRule5 (some wMktReport) ∧
    generateActionItems wFinReport wOpsReport (some wMktReport) =
      [⟨"high", "operations", ["Beef Box", "Pork Chops"]⟩,
       ⟨"medium", "finance", ["PO-1", "PO-2"]⟩,
       ⟨"high", "finance", []⟩, ⟨"high", "operations", []⟩,
       ⟨"medium", "marketing", []⟩] ∧
    generateActionItems wFinReport wOpsReport none =
      [⟨"high", "operations", ["Beef Box", "Pork Chops"]⟩,
       ⟨"medium", "finance", ["PO-1", "PO-2"]⟩,
       ⟨"high", "finance", []⟩, ⟨"high", "operations", []⟩] :=
  ⟨(generateActionItems_rule_structure wFinReport wOpsReport (some wMktReport)).1,
   by with_unfolding_all decide, by with_unfolding_all decide⟩

/-- Witness for C7: 15 products (with a revenue tie between P02 and P04)
rank to exactly the top 10 with the tie in record order, and the six
witness campaigns rank to the top 5 with Campaign B before Campaign C. -/
theorem ranked_topN_stable_witness :
    (∀ p ∈ wProducts, (p.2.revenue).isNum = true) ∧
    topProductsOf wProducts =
      (sortDesc JNum.lt (fun p => p.2.revenue) wProducts).take 10 ∧
    (topProductsOf wProducts).length = min 10 wProducts.length ∧
    (getPerformanceSummary wCampaigns).top_campaigns.length = min 5 wCampaigns.length ∧
    (topProductsOf wProducts).map (fun p => p.1) =
      ["P06", "P09", "P14", "P02", "P04", "P11", "P08", "P12", "P03", "P15"] ∧
    ((getPerformanceSummary wCampaigns).top_campaigns.map (fun c => c.name)) =
      ["Campaign E", "Campaign B", "Campaign C", "Campaign A", "Campaign F"] := by
  have h := ranked_topN_stable wProducts wCampaigns (by decide)
  exact ⟨by decide, h.1, h.2.2.1, h.2.2.2.2.2.2.1,
    by with_unfolding_all decide, by with_unfolding_all decide⟩

end PFI
